import Mathlib

/-!
Shallow embedding of the scummvm-bolt "funhouse" engine core
(event loop, drive-until-yield dispatch, scene hit testing,
memory/sliding puzzle state machines, binary record decoders),
translated from the C++ sources, together with theorems checking the
natural-language specification against it.
-/

namespace Funhouse

/-- A 2D point with integer coordinates (Common::Point with int16 fields;
modelled on unbounded Int since coordinates are never wrapped in the core). -/
structure Point where
  x : Int
  y : Int
deriving DecidableEq, Repr

instance : Add Point := ⟨fun a b => ⟨a.x + b.x, a.y + b.y⟩⟩

theorem Point.add_def (a b : Point) : a + b = ⟨a.x + b.x, a.y + b.y⟩ := rfl

/-- The tags of BoltMsg (bolt.h): external events (timer, hover, click,
right-click, smooth-animation, drive), the yield sentinel, and the
messages synthesized internally (scene button click, popup button click). -/
inductive BoltMsgType where
  | kYield
  | kTimer
  | kHover
  | kClick
  | kRightClick
  | kSmoothAnimation
  | kDrive
  | kClickButton
  | kPopupButtonClick
deriving DecidableEq, Repr

/-- A message: a tag plus an integer payload and a point payload
(fields unused by a given tag are left at defaults, as in the source). -/
structure BoltMsg where
  type : BoltMsgType
  num : Int := 0
  point : Point := ⟨0, 0⟩
deriving DecidableEq, Repr

/-- Message constructed from a bare tag, as `BoltMsg msg(BoltMsg::kDrive)`. -/
def BoltMsg.ofType (t : BoltMsgType) : BoltMsg := { type := t }

def yieldMsg : BoltMsg := BoltMsg.ofType .kYield
def driveMsg : BoltMsg := BoltMsg.ofType .kDrive
def smoothAnimationMsg : BoltMsg := BoltMsg.ofType .kSmoothAnimation

/-- Timer message carrying the fired timer's id (bolt.cpp run loop). -/
def timerMsg (id : Int) : BoltMsg := { type := .kTimer, num := id }

/-- Hover message carrying the mouse position. -/
def hoverMsg (p : Point) : BoltMsg := { type := .kHover, point := p }

/-- Click message carrying the mouse position. -/
def clickMsg (p : Point) : BoltMsg := { type := .kClick, point := p }

/-- Right-click message carrying the mouse position. -/
def rightClickMsg (p : Point) : BoltMsg := { type := .kRightClick, point := p }

/-- Unsigned 32-bit subtraction `a - b` on Nat, as performed on the
engine's uint32 time values. -/
def sub32 (a b : Nat) : Nat :=
  (a + (4294967296 - b % 4294967296)) % 4294967296

/-- A pending timer: start time, delay and integer id
(FunhouseEngine::Timer; start and delay are uint32). -/
structure Timer where
  start : Nat
  delay : Nat
  id : Int
deriving DecidableEq, Repr

/-- A timer is due at time `now` when its elapsed time (uint32 delta)
is at least its delay (bolt.cpp:68). -/
def Timer.due (now : Nat) (t : Timer) : Prop := sub32 now t.start ≥ t.delay

instance (now : Nat) (t : Timer) : Decidable (Timer.due now t) := by
  unfold Timer.due; infer_instance

/-- Deadline of a timer: start time plus delay. -/
def Timer.deadline (t : Timer) : Nat := t.start + t.delay

/-- Linear scan of the pending timer list (bolt.cpp:64-72): track the
best candidate (position and timer) and its delta; a timer replaces the
candidate when it is due and its delta is strictly below the best delta. -/
def findNextTimerAux (now : Nat) :
    List Timer → Nat → Option (Nat × Timer) → Nat → Option (Nat × Timer)
  | [], _, best, _ => best
  | t :: rest, i, best, bestDelta =>
    let delta := sub32 now t.start
    if delta ≥ t.delay ∧ delta < bestDelta then
      findNextTimerAux now rest (i + 1) (some (i, t)) delta
    else
      findNextTimerAux now rest (i + 1) best bestDelta

/-- Select the next timer to handle, as in FunhouseEngine::run: the scan
starts with no candidate and best delta 0xFFFFFFFF. -/
def findNextTimer (now : Nat) (timers : List Timer) : Option (Nat × Timer) :=
  findNextTimerAux now timers 0 none 4294967295

/-- One polled OS event (Common::Event), reduced to the cases the run
loop distinguishes; `other` covers EVENT_INVALID (no event pending) and
every event type the loop does not handle. -/
inductive InputEvent where
  | mouseMove (p : Point)
  | lButtonDown (p : Point)
  | rButtonDown (p : Point)
  | keyDownCtrlD
  | other
deriving DecidableEq, Repr

/-- Outcome of one iteration of the FunhouseEngine::run while loop:
the message handed to topLevelHandleMsg (none when the iteration only
attached the debug console), the value of _eventTime during handling,
and the loop state afterwards. -/
structure IterOut where
  dispatched : Option BoltMsg
  eventTime : Nat
  timers : List Timer
  smoothAnimationRequested : Bool
deriving DecidableEq, Repr

/-- One iteration of the run event loop (bolt.cpp:60-117): fire the
selected due timer if any (rewinding _eventTime to its deadline and
erasing it); otherwise translate the polled input event; otherwise
consume the smooth-animation flag; otherwise emit a drive message. -/
def runIteration (now : Nat) (poll : InputEvent) (timers : List Timer)
    (smoothAnimationRequested : Bool) : IterOut :=
  match findNextTimer now timers with
  | some (i, t) =>
    { dispatched := some (timerMsg t.id)
      eventTime := (t.start + t.delay) % 4294967296
      timers := timers.eraseIdx i
      smoothAnimationRequested := smoothAnimationRequested }
  | none =>
    match poll with
    | .keyDownCtrlD =>
      { dispatched := none, eventTime := now, timers := timers
        smoothAnimationRequested := smoothAnimationRequested }
    | .mouseMove p =>
      { dispatched := some (hoverMsg p), eventTime := now, timers := timers
        smoothAnimationRequested := smoothAnimationRequested }
    | .lButtonDown p =>
      { dispatched := some (clickMsg p), eventTime := now, timers := timers
        smoothAnimationRequested := smoothAnimationRequested }
    | .rButtonDown p =>
      { dispatched := some (rightClickMsg p), eventTime := now, timers := timers
        smoothAnimationRequested := smoothAnimationRequested }
    | .other =>
      if smoothAnimationRequested then
        { dispatched := some smoothAnimationMsg, eventTime := now
          timers := timers, smoothAnimationRequested := false }
      else
        { dispatched := some driveMsg, eventTime := now, timers := timers
          smoothAnimationRequested := smoothAnimationRequested }

lemma findNextTimerAux_isSome_of_best (now : Nat) :
    ∀ (l : List Timer) (i : Nat) (p : Nat × Timer) (bd : Nat),
      (findNextTimerAux now l i (some p) bd).isSome
  | [], _, _, _ => rfl
  | t :: rest, i, p, bd => by
    unfold findNextTimerAux
    by_cases h : sub32 now t.start ≥ t.delay ∧ sub32 now t.start < bd
    · simp only [h, if_true]
      exact findNextTimerAux_isSome_of_best now rest (i + 1) (i, t) _
    · simp only [h, if_false]
      exact findNextTimerAux_isSome_of_best now rest (i + 1) p bd

lemma findNextTimerAux_isSome (now : Nat) :
    ∀ (l : List Timer) (i : Nat) (best : Option (Nat × Timer)) (bd : Nat),
      (∃ x ∈ l, x.due now ∧ sub32 now x.start < bd) →
      (findNextTimerAux now l i best bd).isSome := by
  intro l
  induction l with
  | nil => intro i best bd h; rcases h with ⟨x, hx, _⟩; cases hx
  | cons t rest ih =>
    intro i best bd h
    unfold findNextTimerAux
    by_cases hc : sub32 now t.start ≥ t.delay ∧ sub32 now t.start < bd
    · simp only [hc, if_true]
      exact findNextTimerAux_isSome_of_best now rest (i + 1) (i, t) _
    · simp only [hc, if_false]
      rcases h with ⟨x, hx, hdue, hlt⟩
      rcases List.mem_cons.mp hx with rfl | hmem
      · exact absurd ⟨hdue, hlt⟩ hc
      · exact ih (i + 1) best bd ⟨x, hmem, hdue, hlt⟩

lemma findNextTimerAux_min (now : Nat) :
    ∀ (l : List Timer) (i : Nat) (best : Option (Nat × Timer)) (bd : Nat)
      (k : Nat) (u : Timer),
      (∀ p : Nat × Timer, best = some p →
        p.2.due now ∧ sub32 now p.2.start ≤ bd) →
      findNextTimerAux now l i best bd = some (k, u) →
      u.due now ∧ sub32 now u.start ≤ bd ∧
        ∀ x ∈ l, x.due now → sub32 now u.start ≤ sub32 now x.start := by
  intro l
  induction l with
  | nil =>
    intro i best bd k u hbest hres
    rcases hbest (k, u) hres with ⟨hdue, hle⟩
    exact ⟨hdue, hle, fun x hx => absurd hx (List.not_mem_nil x)⟩
  | cons t rest ih =>
    intro i best bd k u hbest hres
    unfold findNextTimerAux at hres
    by_cases hc : sub32 now t.start ≥ t.delay ∧ sub32 now t.start < bd
    · simp only [hc, if_true] at hres
      have hbest' : ∀ p : Nat × Timer, some (i, t) = some p →
          p.2.due now ∧ sub32 now p.2.start ≤ sub32 now t.start := by
        intro p hp
        cases Option.some.inj hp
        exact ⟨hc.1, le_refl _⟩
      rcases ih (i + 1) (some (i, t)) (sub32 now t.start) k u hbest' hres with
        ⟨hdue, hle, hmin⟩
      refine ⟨hdue, le_of_lt (lt_of_le_of_lt hle hc.2), ?_⟩
      intro x hx hxdue
      rcases List.mem_cons.mp hx with rfl | hmem
      · exact hle
      · exact hmin x hmem hxdue
    · simp only [hc, if_false] at hres
      rcases ih (i + 1) best bd k u hbest hres with ⟨hdue, hle, hmin⟩
      refine ⟨hdue, hle, ?_⟩
      intro x hx hxdue
      rcases List.mem_cons.mp hx with rfl | hmem
      · have hnotlt : ¬ sub32 now x.start < bd := fun hlt => hc ⟨hxdue, hlt⟩
        exact le_trans hle (le_of_not_lt hnotlt)
      · exact hmin x hmem hxdue

lemma findNextTimerAux_mem (now : Nat) :
    ∀ (l : List Timer) (i : Nat) (best : Option (Nat × Timer)) (bd : Nat)
      (k : Nat) (u : Timer),
      findNextTimerAux now l i best bd = some (k, u) →
      best = some (k, u) ∨ ∃ j, l.get? j = some u ∧ k = i + j := by
  intro l
  induction l with
  | nil => intro i best bd k u hres; exact Or.inl hres
  | cons t rest ih =>
    intro i best bd k u hres
    unfold findNextTimerAux at hres
    by_cases hc : sub32 now t.start ≥ t.delay ∧ sub32 now t.start < bd
    · simp only [hc, if_true] at hres
      rcases ih (i + 1) (some (i, t)) (sub32 now t.start) k u hres with heq | ⟨j, hj, hk⟩
      · cases Option.some.inj heq
        exact Or.inr ⟨0, rfl, rfl⟩
      · exact Or.inr ⟨j + 1, hj, by omega⟩
    · simp only [hc, if_false] at hres
      rcases ih (i + 1) best bd k u hres with heq | ⟨j, hj, hk⟩
      · exact Or.inl heq
      · exact Or.inr ⟨j + 1, hj, by omega⟩

/-- Full characterization of the timer scan: a selected timer is in the
list at the reported position, is due, and minimizes the uint32 elapsed
time among all due timers. -/
lemma findNextTimer_spec (now : Nat) (timers : List Timer) (k : Nat) (u : Timer)
    (h : findNextTimer now timers = some (k, u)) :
    timers.get? k = some u ∧ u.due now ∧
      ∀ x ∈ timers, x.due now → sub32 now u.start ≤ sub32 now x.start := by
  have hmem := findNextTimerAux_mem now timers 0 none 4294967295 k u h
  have hmin := findNextTimerAux_min now timers 0 none 4294967295 k u
    (fun p hp => by cases hp) h
  rcases hmem with heq | ⟨j, hj, hk⟩
  · cases heq
  · subst hk
    exact ⟨by simpa using hj, hmin.1, hmin.2.2⟩

/-- If some timer is due (with elapsed time below the scan's initial
sentinel 0xFFFFFFFF), the scan selects a timer. -/
lemma findNextTimer_isSome (now : Nat) (timers : List Timer)
    (h : ∃ x ∈ timers, x.due now ∧ sub32 now x.start < 4294967295) :
    (findNextTimer now timers).isSome :=
  findNextTimerAux_isSome now timers 0 none 4294967295 h

/-- The claim that the due timer with the earliest deadline is selected
fails: at time 10 with pending timers (start 0, delay 1, id 0) and
(start 5, delay 1, id 1), both are due; the earliest deadline is 1
(timer id 0), yet the loop dispatches timer id 1, because the scan
minimizes the elapsed time `now - start`, not the deadline. -/
theorem timer_selection_not_earliest_deadline_cex :
    (runIteration 10 .other
        [⟨0, 1, 0⟩, ⟨5, 1, 1⟩] false).dispatched = some (timerMsg 1) ∧
    Timer.due 10 ⟨0, 1, 0⟩ ∧ Timer.due 10 ⟨5, 1, 1⟩ ∧
    Timer.deadline ⟨0, 1, 0⟩ < Timer.deadline ⟨5, 1, 1⟩ := by
  refine ⟨?_, by decide, by decide, by decide⟩
  decide

/-- Amended timer selection: in an event-loop iteration, the selected
timer is a pending timer that is due and whose elapsed time
`now - start` (uint32) is minimal among all due timers (not the one
with the earliest deadline); it is removed from the pending list, and
the timer message carrying its id is dispatched regardless of any
pending input event or smooth-animation request. -/
theorem timer_selection_amended (now : Nat) (timers : List Timer)
    (k : Nat) (u : Timer) (h : findNextTimer now timers = some (k, u)) :
    timers.get? k = some u ∧ u.due now ∧
    (∀ x ∈ timers, x.due now → sub32 now u.start ≤ sub32 now x.start) ∧
    ∀ (poll : InputEvent) (flag : Bool),
      (runIteration now poll timers flag).dispatched = some (timerMsg u.id) ∧
      (runIteration now poll timers flag).timers = timers.eraseIdx k := by
  rcases findNextTimer_spec now timers k u h with ⟨hget, hdue, hmin⟩
  refine ⟨hget, hdue, hmin, ?_⟩
  intro poll flag
  simp [runIteration, h]

/-- Witness for the amended timer-selection theorem at the concrete
input of the counterexample: the selected timer is (start 5, delay 1,
id 1) at position 1. -/
theorem timer_selection_amended_witness :
    [(⟨0, 1, 0⟩ : Timer), ⟨5, 1, 1⟩].get? 1 = some ⟨5, 1, 1⟩ ∧
    Timer.due 10 ⟨5, 1, 1⟩ ∧
    (∀ x ∈ [(⟨0, 1, 0⟩ : Timer), ⟨5, 1, 1⟩], x.due 10 →
      sub32 10 (5 : Nat) ≤ sub32 10 x.start) ∧
    ∀ (poll : InputEvent) (flag : Bool),
      (runIteration 10 poll [⟨0, 1, 0⟩, ⟨5, 1, 1⟩] flag).dispatched
        = some (timerMsg 1) ∧
      (runIteration 10 poll [⟨0, 1, 0⟩, ⟨5, 1, 1⟩] flag).timers
        = [⟨0, 1, 0⟩, ⟨5, 1, 1⟩].eraseIdx 1 :=
  timer_selection_amended 10 [⟨0, 1, 0⟩, ⟨5, 1, 1⟩] 1 ⟨5, 1, 1⟩ (by decide)

/-- The claim that in every iteration a due timer is dispatched first,
and that a drive message is emitted only when no timer is pending,
fails at the scan's sentinel: at time 0xFFFFFFFF the pending timer
(start 0, delay 1) is due (uint32 elapsed 0xFFFFFFFF >= 1), yet the
scan selects no timer because its initial best delta is the sentinel
0xFFFFFFFF itself and the replacement test is strict; a polled
mouse-move is dispatched ahead of the due timer, and with nothing
polled a drive message is emitted while the due timer is still
pending. -/
theorem event_loop_priority_sentinel_cex :
    Timer.due 4294967295 ⟨0, 1, 0⟩ ∧
    findNextTimer 4294967295 [⟨0, 1, 0⟩] = none ∧
    (runIteration 4294967295 (.mouseMove ⟨1, 2⟩)
        [⟨0, 1, 0⟩] false).dispatched = some (hoverMsg ⟨1, 2⟩) ∧
    (runIteration 4294967295 .other
        [⟨0, 1, 0⟩] false).dispatched = some driveMsg ∧
    (runIteration 4294967295 .other [⟨0, 1, 0⟩] false).timers
      = [⟨0, 1, 0⟩] := by
  refine ⟨by decide, by decide, by decide, by decide, by decide⟩

/-- Amended event source arbitration in one loop iteration: a due
timer whose uint32 elapsed time is below the scan's 0xFFFFFFFF
sentinel always yields a timer dispatch (a due timer at exactly the
sentinel is skipped that iteration, as the counterexample shows);
with no timer selected, a polled mouse-move, left-click or right-click
is dispatched even when the smooth-animation flag is set; the
smooth-animation message is dispatched only with the flag set and no
input, and consuming it clears the flag; a drive message is emitted
only when no timer was selected, no handled input event was polled and
the smooth-animation flag is clear. -/
theorem event_loop_priority (now : Nat) (timers : List Timer)
    (poll : InputEvent) (flag : Bool) :
    ((∃ x ∈ timers, x.due now ∧ sub32 now x.start < 4294967295) →
      ∃ id, (runIteration now poll timers flag).dispatched = some (timerMsg id)) ∧
    (findNextTimer now timers = none →
      (∀ p, poll = .mouseMove p →
        (runIteration now poll timers flag).dispatched = some (hoverMsg p)) ∧
      (∀ p, poll = .lButtonDown p →
        (runIteration now poll timers flag).dispatched = some (clickMsg p)) ∧
      (∀ p, poll = .rButtonDown p →
        (runIteration now poll timers flag).dispatched = some (rightClickMsg p)) ∧
      (poll = .other → flag = true →
        (runIteration now poll timers flag).dispatched = some smoothAnimationMsg) ∧
      (poll = .other → flag = false →
        (runIteration now poll timers flag).dispatched = some driveMsg)) ∧
    ((runIteration now poll timers flag).dispatched = some smoothAnimationMsg →
      (runIteration now poll timers flag).smoothAnimationRequested = false) ∧
    ((runIteration now poll timers flag).dispatched = some driveMsg →
      findNextTimer now timers = none ∧ poll = .other ∧ flag = false) := by
  rcases hf : findNextTimer now timers with _ | ⟨k, u⟩
  · refine ⟨?_, ?_, ?_, ?_⟩
    · intro h
      have := findNextTimer_isSome now timers h
      rw [hf] at this
      cases this
    · intro _
      refine ⟨?_, ?_, ?_, ?_, ?_⟩
      · intro q hq; subst hq; simp [runIteration, hf]
      · intro q hq; subst hq; simp [runIteration, hf]
      · intro q hq; subst hq; simp [runIteration, hf]
      · intro hp hfl; subst hp; subst hfl; simp [runIteration, hf]
      · intro hp hfl; subst hp; subst hfl; simp [runIteration, hf]
    · intro hd
      cases poll <;>
        simp [runIteration, hf, hoverMsg, clickMsg, rightClickMsg,
          smoothAnimationMsg, BoltMsg.ofType] at hd ⊢
      cases flag <;> simp_all [driveMsg, BoltMsg.ofType]
    · intro hd
      cases poll <;>
        simp [runIteration, hf, hoverMsg, clickMsg, rightClickMsg,
          driveMsg, smoothAnimationMsg, BoltMsg.ofType] at hd ⊢
      cases flag <;> simp_all [BoltMsg.ofType]
  · refine ⟨?_, ?_, ?_, ?_⟩
    · intro _
      exact ⟨u.id, by simp [runIteration, hf]⟩
    · intro hnone; cases hnone
    · intro hd
      simp [runIteration, hf, timerMsg, smoothAnimationMsg, BoltMsg.ofType] at hd
    · intro hd
      simp [runIteration, hf, timerMsg, driveMsg, BoltMsg.ofType] at hd

/-- Witness for the arbitration theorem: at time 10 with a due timer
(start 0, delay 5, id 7), even with a mouse-move polled and the
smooth-animation flag set, a timer message is dispatched. -/
theorem event_loop_priority_witness :
    ∃ id, (runIteration 10 (.mouseMove ⟨1, 2⟩)
      [⟨0, 5, 7⟩] true).dispatched = some (timerMsg id) :=
  (event_loop_priority 10 [⟨0, 5, 7⟩] (.mouseMove ⟨1, 2⟩) true).1
    ⟨⟨0, 5, 7⟩, by decide⟩

/-- Events emitted by the game handler while it processes one delivered
message; the only kind the model records is the sequencer re-running a
script step (MerlinGame::runScript reached from handleMsgInCard). -/
inductive GameEv where
  | runScriptStep (cursor : Nat)
deriving DecidableEq, Repr

/-- Observable events of the engine dispatch protocol: a message
delivered to the game handler, an event from inside the handler, and a
presentIfDirty call. -/
inductive Ev where
  | dispatch (m : BoltMsg)
  | game (e : GameEv)
  | present
deriving DecidableEq, Repr

/-- Abstract game handler over an engine-side state: given the
delivered message and the state, it returns the new state, the value of
the engine's current-message slot after handling (the engine resets the
slot to the yield sentinel before the call; the handler may overwrite
it via setNextMsg), and the events it emitted. -/
def GameFn (σ : Type) : Type := BoltMsg → σ → σ × BoltMsg × List GameEv

/-- The inner resend loop of FunhouseEngine::topLevelHandleMsg
(bolt.cpp:160-169): redeliver the current message value to the game
handler until the handler leaves the message slot at the yield
sentinel. Fuel bounds the unbounded C++ while loop; none signals that
the handlers did not converge within the fuel. -/
def driveUntilYield {σ : Type} (g : GameFn σ) :
    Nat → BoltMsg → σ → Option (σ × List Ev)
  | 0, _, _ => none
  | fuel + 1, m, s =>
    match g m s with
    | (s1, m1, gevs) =>
      let evs := Ev.dispatch m :: gevs.map Ev.game
      if m1.type = .kYield then
        some (s1, evs)
      else
        match driveUntilYield g fuel m1 s1 with
        | none => none
        | some (s2, rest) => some (s2, evs ++ rest)

/-- FunhouseEngine::topLevelHandleMsg (bolt.cpp:155-172): run the
resend loop on the externally sourced message, then call
presentIfDirty exactly once. -/
def topLevelHandleMsg {σ : Type} (g : GameFn σ) (fuel : Nat) (m : BoltMsg)
    (s : σ) : Option (σ × List Ev) :=
  match driveUntilYield g fuel m s with
  | none => none
  | some (s1, evs) => some (s1, evs ++ [Ev.present])

lemma driveUntilYield_head {σ : Type} (g : GameFn σ) :
    ∀ (fuel : Nat) (m : BoltMsg) (s : σ) (s1 : σ) (evs : List Ev),
      driveUntilYield g fuel m s = some (s1, evs) →
      evs.head? = some (Ev.dispatch m) := by
  intro fuel
  induction fuel with
  | zero => intro m s s1 evs h; cases h
  | succ n _ =>
    intro m s s1 evs h
    unfold driveUntilYield at h
    rcases hg : g m s with ⟨sa, ma, gevs⟩
    rw [hg] at h
    by_cases hy : ma.type = .kYield
    · simp only [hy, if_true, Option.some.injEq, Prod.mk.injEq] at h
      rw [← h.2]
      rfl
    · simp only [hy, if_false] at h
      rcases hrec : driveUntilYield g n ma sa with _ | ⟨sb, rest⟩ <;>
        rw [hrec] at h
      · cases h
      · simp only [Option.some.injEq, Prod.mk.injEq] at h
        rw [← h.2]
        rfl

lemma driveUntilYield_no_present {σ : Type} (g : GameFn σ) :
    ∀ (fuel : Nat) (m : BoltMsg) (s : σ) (s1 : σ) (evs : List Ev),
      driveUntilYield g fuel m s = some (s1, evs) →
      Ev.present ∉ evs := by
  intro fuel
  induction fuel with
  | zero => intro m s s1 evs h; cases h
  | succ n ih =>
    intro m s s1 evs h
    unfold driveUntilYield at h
    rcases hg : g m s with ⟨sa, ma, gevs⟩
    rw [hg] at h
    by_cases hy : ma.type = .kYield
    · simp only [hy, if_true, Option.some.injEq, Prod.mk.injEq] at h
      rw [← h.2]
      intro hmem
      rcases List.mem_cons.mp hmem with heq | hmem2
      · cases heq
      · rcases List.mem_map.mp hmem2 with ⟨e, _, heq⟩; cases heq
    · simp only [hy, if_false] at h
      rcases hrec : driveUntilYield g n ma sa with _ | ⟨sb, rest⟩ <;>
        rw [hrec] at h
      · cases h
      · simp only [Option.some.injEq, Prod.mk.injEq] at h
        rw [← h.2]
        intro hmem
        rcases List.mem_append.mp hmem with hmem1 | hmem2
        · rcases List.mem_cons.mp hmem1 with heq | hmem3
          · cases heq
          · rcases List.mem_map.mp hmem3 with ⟨e, _, heq⟩; cases heq
        · exact ih ma sa sb rest hrec hmem2

/-- The drive-until-yield protocol: whenever the dispatch of an
external message terminates, the first recorded event is the delivery
of that message, subsequent deliveries redeliver whatever message value
the handler left in the slot, and presentIfDirty is called exactly
once, after every delivery; in particular a handler that synthesizes
exactly one internal message and then yields produces exactly the trace
`dispatch external, dispatch internal, present`, with one present call. -/
theorem drive_until_yield_presents_once :
    (∀ (σ : Type) (g : GameFn σ) (fuel : Nat) (m : BoltMsg) (s : σ)
      (s1 : σ) (evs : List Ev),
      topLevelHandleMsg g fuel m s = some (s1, evs) →
      evs.count Ev.present = 1 ∧ evs.getLast? = some Ev.present ∧
        evs.head? = some (Ev.dispatch m)) ∧
    (∀ (m0 m1 : BoltMsg), m1.type ≠ .kYield →
      topLevelHandleMsg
        (fun _ s => if s then (true, yieldMsg, []) else (true, m1, []))
        2 m0 false =
        some (true, [Ev.dispatch m0, Ev.dispatch m1, Ev.present])) := by
  constructor
  · intro σ g fuel m s s1 evs h
    unfold topLevelHandleMsg at h
    rcases hd : driveUntilYield g fuel m s with _ | ⟨sa, evs1⟩ <;> rw [hd] at h
    · cases h
    · simp only [Option.some.injEq, Prod.mk.injEq] at h
      rw [← h.2]
      have hnp := driveUntilYield_no_present g fuel m s sa evs1 hd
      have hhead := driveUntilYield_head g fuel m s sa evs1 hd
      refine ⟨?_, ?_, ?_⟩
      · rw [List.count_append]
        rw [List.count_eq_zero.mpr hnp]
        rfl
      · rw [List.getLast?_append]
        rfl
      · cases evs1 with
        | nil => cases hhead
        | cons a l => simpa using hhead
  · intro m0 m1 hne
    simp only [topLevelHandleMsg, driveUntilYield]
    simp [hne, yieldMsg, BoltMsg.ofType]

/-- Witness for the drive-until-yield theorem: the general part applied
to the concrete one-internal-message handler chain of the second part,
whose trace is computed by the second part. -/
theorem drive_until_yield_presents_once_witness :
    ([Ev.dispatch driveMsg, Ev.dispatch (clickMsg ⟨3, 4⟩),
        Ev.present].count Ev.present = 1 ∧
      [Ev.dispatch driveMsg, Ev.dispatch (clickMsg ⟨3, 4⟩),
        Ev.present].getLast? = some Ev.present ∧
      [Ev.dispatch driveMsg, Ev.dispatch (clickMsg ⟨3, 4⟩),
        Ev.present].head? = some (Ev.dispatch driveMsg)) :=
  drive_until_yield_presents_once.1 Bool
    (fun _ s => if s then (true, yieldMsg, []) else (true, clickMsg ⟨3, 4⟩, []))
    2 driveMsg false true _
    (drive_until_yield_presents_once.2 driveMsg (clickMsg ⟨3, 4⟩) (by decide))

/-- Card/handler response codes (BoltRsp in the source; kPass lets the
next handler in the chain try, kDone consumes the message, kWin reports
a puzzle win to the sequencer). -/
inductive BoltRsp where
  | kDone
  | kPass
  | kWin
deriving DecidableEq, Repr

/-- One entry of the navigation script (MerlinGame::ScriptEntry): a
scalar parameter and the branch table of successor indices (the handler
member-function pointer is modelled separately as a state transformer). -/
structure ScriptEntry where
  param : Int := 0
  branchTable : List Nat := []

/-- The sequencer-visible engine state: current and next script cursor,
plus the engine's current-message slot written by setNextMsg. -/
structure MerlinState where
  scriptCursor : Nat
  nextScriptCursor : Nat
  pendingMsg : BoltMsg
deriving DecidableEq, Repr

/-- MerlinGame::branchScript (merlin.cpp:907-914): record the next
script cursor — branchTable[outcomeIndex] of the current entry, or the
argument itself when absolute — and queue a drive message via
setNextMsg. It performs no script step itself. -/
def branchScript (script : Nat → ScriptEntry) (idx : Nat) (absolute : Bool)
    (s : MerlinState) : MerlinState :=
  let next :=
    if absolute then idx
    else ((script s.scriptCursor).branchTable).getD idx 0
  { s with nextScriptCursor := next, pendingMsg := driveMsg }

/-- An active card's handleMsg, as a function of the delivered message
and the sequencer state (cards call branchScript/setNextMsg through the
game, which this state models). -/
def CardFn : Type := BoltMsg → MerlinState → MerlinState × BoltRsp

/-- MerlinGame::handleMsgInCard (merlin.cpp:703-719): deliver the
message to the active card; when the card consumed it (kDone) and a
branch is pending (nextScriptCursor differs from scriptCursor), commit
the cursor and re-run the script step for it. The script entry handler
is the opaque state transformer scriptStep; the re-run is recorded as a
runScriptStep event. -/
def handleMsgInCard (card : CardFn)
    (scriptStep : Nat → MerlinState → MerlinState) (m : BoltMsg)
    (s : MerlinState) : MerlinState × BoltRsp × List GameEv :=
  match card m s with
  | (s1, rsp) =>
    if rsp = .kDone ∧ s1.nextScriptCursor ≠ s1.scriptCursor then
      (scriptStep s1.nextScriptCursor { s1 with scriptCursor := s1.nextScriptCursor },
        rsp, [GameEv.runScriptStep s1.nextScriptCursor])
    else
      (s1, rsp, [])

/-- The Merlin game as a top-level game handler: the engine resets the
message slot to the yield sentinel before the call, and the value of
the slot afterwards is what the dispatch loop examines. -/
def merlinGameFn (card : CardFn)
    (scriptStep : Nat → MerlinState → MerlinState) : GameFn MerlinState :=
  fun m s =>
    match handleMsgInCard card scriptStep m { s with pendingMsg := yieldMsg } with
    | (s1, _, gevs) => (s1, s1.pendingMsg, gevs)

/-- The property asserted by the claim for the dispatch trace: every
script re-run happens only after the display has been presented. -/
def runsScriptOnlyAfterPresent (evs : List Ev) : Prop :=
  ∀ i c, evs.get? i = some (Ev.game (GameEv.runScriptStep c)) →
    ∃ j, j < i ∧ evs.get? j = some Ev.present

/-- Script table for the concrete counterexample run: entry 0 branches
to entry 5. -/
def cexScript : Nat → ScriptEntry :=
  fun c => if c = 0 then { param := 0, branchTable := [5] } else { }

/-- Card for the counterexample run: it consumes a click by taking
branch 0 and consumes everything else silently. -/
def cexCard : CardFn :=
  fun m s =>
    if m.type = .kClick then (branchScript cexScript 0 false s, .kDone)
    else (s, .kDone)

/-- The trace of delivering one click to cexCard: the script step for
cursor 5 runs inside the same dispatch cycle, before presentIfDirty. -/
def cexBranchTrace : List Ev :=
  [Ev.dispatch (clickMsg ⟨0, 0⟩), Ev.game (GameEv.runScriptStep 5),
    Ev.dispatch driveMsg, Ev.present]

/-- The claim that the script step for a branched-to cursor runs only
after the display has been redrawn is false: delivering a click to a
card that branches (entry 0 to entry 5) re-runs the script step
synchronously inside the same dispatch cycle — after the card's
handling completes but before the single presentIfDirty call, which
only happens once the queued drive message has been delivered and
yielded. -/
theorem branch_script_before_present_cex :
    topLevelHandleMsg (merlinGameFn cexCard (fun _ s => s)) 2
        (clickMsg ⟨0, 0⟩) ⟨0, 0, yieldMsg⟩ =
      some (⟨5, 5, yieldMsg⟩, cexBranchTrace) ∧
    ¬ runsScriptOnlyAfterPresent cexBranchTrace := by
  constructor
  · rfl
  · intro hall
    rcases hall 1 5 rfl with ⟨j, hj, hev⟩
    have hj0 : j = 0 := by omega
    subst hj0
    cases hev

/-- Amended branching protocol: branchScript only records the next
script cursor (branchTable[outcomeIndex], or the argument itself when
absolute is requested) and queues a drive message; it never runs a
script step itself. In every terminating dispatch, a script re-run
event occurs only strictly after the delivery of the message that is
being handled, and strictly before the present call (not after the
display has been redrawn): no event at or before a script re-run is a
present. -/
theorem branch_script_defers_amended :
    (∀ (script : Nat → ScriptEntry) (idx : Nat) (absolute : Bool)
      (s : MerlinState),
      branchScript script idx absolute s =
        { scriptCursor := s.scriptCursor
          nextScriptCursor :=
            if absolute then idx
            else ((script s.scriptCursor).branchTable).getD idx 0
          pendingMsg := driveMsg }) ∧
    (∀ (card : CardFn) (scriptStep : Nat → MerlinState → MerlinState)
      (fuel : Nat) (m : BoltMsg) (s s1 : MerlinState) (evs : List Ev),
      topLevelHandleMsg (merlinGameFn card scriptStep) fuel m s = some (s1, evs) →
      ∀ i c, evs.get? i = some (Ev.game (GameEv.runScriptStep c)) →
        evs.get? 0 = some (Ev.dispatch m) ∧ 0 < i ∧
        ∀ j, j ≤ i → evs.get? j ≠ some Ev.present) := by
  constructor
  · intro script idx absolute s
    rfl
  · intro card scriptStep fuel m s s1 evs h i c hi
    unfold topLevelHandleMsg at h
    rcases hd : driveUntilYield (merlinGameFn card scriptStep) fuel m s with
      _ | ⟨sa, evs1⟩ <;> rw [hd] at h
    · cases h
    · simp only [Option.some.injEq, Prod.mk.injEq] at h
      have hevs : evs = evs1 ++ [Ev.present] := h.2.symm
      subst hevs
      have hnp := driveUntilYield_no_present
        (merlinGameFn card scriptStep) fuel m s sa evs1 hd
      have hhead := driveUntilYield_head
        (merlinGameFn card scriptStep) fuel m s sa evs1 hd
      have hlen : 0 < evs1.length := by
        cases evs1 with
        | nil => cases hhead
        | cons a l => simp
      have hilt : i < evs1.length := by
        by_contra hge
        push_neg at hge
        rw [List.get?_append_right hge] at hi
        rcases hip : i - evs1.length with _ | k
        · rw [hip] at hi
          cases hi
        · rw [hip] at hi
          cases hi
      refine ⟨?_, ?_, ?_⟩
      · rw [List.get?_append hlen]
        cases evs1 with
        | nil => cases hhead
        | cons a l => simpa using hhead
      · rcases Nat.eq_zero_or_pos i with rfl | hpos
        · rw [List.get?_append hlen] at hi
          cases evs1 with
          | nil => cases hhead
          | cons a l =>
            simp only [List.head?] at hhead
            simp only [List.get?] at hi
            rw [Option.some.inj hhead] at hi
            cases hi
        · exact hpos
      · intro j hji hev
        have hjlt : j < evs1.length := lt_of_le_of_lt hji hilt
        rw [List.get?_append hjlt] at hev
        exact hnp (List.get?_mem hev)

/-- Witness for the amended branching theorem, applied at the concrete
counterexample run: the script re-run at trace position 1 follows the
click dispatch at position 0 and precedes any present. -/
theorem branch_script_defers_amended_witness :
    cexBranchTrace.get? 0 = some (Ev.dispatch (clickMsg ⟨0, 0⟩)) ∧ 0 < 1 ∧
    ∀ j, j ≤ 1 → cexBranchTrace.get? j ≠ some Ev.present :=
  branch_script_defers_amended.2 cexCard (fun _ s => s) 2 (clickMsg ⟨0, 0⟩)
    ⟨0, 0, yieldMsg⟩ ⟨5, 5, yieldMsg⟩ cexBranchTrace rfl 1 5 rfl

/-- A rectangle with int16 edge coordinates (Funhouse::Rect, decoded
from four big-endian int16 fields). -/
structure Rect where
  left : Int
  top : Int
  right : Int
  bottom : Int
deriving DecidableEq, Repr

/-- Modelled from the spec: Funhouse::Rect::contains is not part of
this snapshot; the spec states the hit test is an inclusive-bounds
rectangle containment check. -/
def Rect.containsPt (r : Rect) (p : Point) : Bool :=
  decide (r.left ≤ p.x ∧ p.x ≤ r.right ∧ r.top ≤ p.y ∧ p.y ≤ r.bottom)

/-- Modelled from the spec: BltImage is not part of this snapshot; for
hit testing only its bounding rectangle matters, so the model keeps the
dimensions and produces the bounding rectangle at a given position. -/
structure BltImage where
  width : Nat
  height : Nat
deriving DecidableEq, Repr

/-- Modelled from the spec: the bounding rectangle of an image drawn at
a position (BltImage::getRect). -/
def BltImage.getRect (img : BltImage) (pos : Point) : Rect :=
  { left := pos.x, top := pos.y
    right := pos.x + img.width, bottom := pos.y + img.height }

/-- Button hotspot types distinguished by Scene::getButtonAtPoint
(scene.h enum; kOther stands for every other value, for which the
if-chain matches nothing). -/
inductive HotspotType where
  | kRect
  | kHotspotQuery
  | kOther
deriving DecidableEq, Repr

/-- A scene button as used by the hit test: hotspot type, owning-plane
flag, the rect/color-range union field, and the override-graphics data
(Scene::Button). -/
structure SceneButton where
  hotspotType : HotspotType
  plane : Nat
  hotspot : Rect
  overrideGraphics : Bool := false
  overridePosition : Point := ⟨0, 0⟩
  overrideIdleImage : BltImage := ⟨0, 0⟩

/-- A scene as seen by the hit test: origin offset, button list, and
the optional hotspot-mask pixel query of each plane (BltImage::query on
the plane's hotspots image). -/
structure Scene where
  origin : Point
  buttons : List SceneButton
  foreHotspots : Option (Int → Int → Nat) := none
  backHotspots : Option (Int → Int → Nat) := none

/-- Hotspot color read at a point: the mask query if the plane has a
hotspot image, else 0 (scene.cpp:272-281). -/
def hotspotColor (h : Option (Int → Int → Nat)) (pt : Point) : Nat :=
  match h with
  | some q => q pt.x pt.y
  | none => 0

/-- The loop body of Scene::getButtonAtPoint (scene.cpp:283-301) for
one button: override-graphics buttons test the override image's
bounding rectangle against the origin-adjusted point; rectangle buttons
test their rect against the origin-adjusted point; color-query buttons
test the hotspot color of the plane selected by the plane flag against
the inclusive [left, right] range. -/
def buttonHit (b : SceneButton) (foreColor backColor : Nat)
    (origin pt : Point) : Bool :=
  if b.overrideGraphics then
    (b.overrideIdleImage.getRect b.overridePosition).containsPt (origin + pt)
  else
    match b.hotspotType with
    | .kRect => b.hotspot.containsPt (origin + pt)
    | .kHotspotQuery =>
      let color : Int := (if b.plane ≠ 0 then backColor else foreColor : Nat)
      decide (b.hotspot.left ≤ color ∧ color ≤ b.hotspot.right)
    | .kOther => false

/-- The iteration of Scene::getButtonAtPoint over the button list in
declaration order: the first matching button's index, or -1. -/
def getButtonAtPointAux (foreColor backColor : Nat) (origin pt : Point) :
    List SceneButton → Int
  | [] => -1
  | b :: rest =>
    if buttonHit b foreColor backColor origin pt then 0
    else
      let r := getButtonAtPointAux foreColor backColor origin pt rest
      if r = -1 then -1 else r + 1

/-- Scene::getButtonAtPoint (scene.cpp:272-304): read both planes'
hotspot colors at the raw point, then scan the buttons. -/
def Scene.getButtonAtPoint (sc : Scene) (pt : Point) : Int :=
  getButtonAtPointAux (hotspotColor sc.foreHotspots pt)
    (hotspotColor sc.backHotspots pt) sc.origin pt sc.buttons

/-- The matching condition as the claim words it, per button: an
override-graphics button matches when the override image's bounding
rectangle contains the origin-adjusted point; a rectangle button when
its rectangle contains the origin-adjusted point with inclusive bounds;
a color-query button when the hotspot-mask color of the plane selected
by its plane flag lies in the inclusive [low, high] range held in the
rectangle's left/right fields. -/
def claimMatches (sc : Scene) (pt : Point) (b : SceneButton) : Prop :=
  if b.overrideGraphics then
    let r := b.overrideIdleImage.getRect b.overridePosition
    r.left ≤ sc.origin.x + pt.x ∧ sc.origin.x + pt.x ≤ r.right ∧
      r.top ≤ sc.origin.y + pt.y ∧ sc.origin.y + pt.y ≤ r.bottom
  else
    match b.hotspotType with
    | .kRect =>
      b.hotspot.left ≤ sc.origin.x + pt.x ∧ sc.origin.x + pt.x ≤ b.hotspot.right ∧
        b.hotspot.top ≤ sc.origin.y + pt.y ∧ sc.origin.y + pt.y ≤ b.hotspot.bottom
    | .kHotspotQuery =>
      let color : Int :=
        (if b.plane ≠ 0 then hotspotColor sc.backHotspots pt
          else hotspotColor sc.foreHotspots pt : Nat)
      b.hotspot.left ≤ color ∧ color ≤ b.hotspot.right
    | .kOther => False

lemma claimMatches_iff_buttonHit (sc : Scene) (pt : Point) (b : SceneButton) :
    claimMatches sc pt b ↔
      buttonHit b (hotspotColor sc.foreHotspots pt)
        (hotspotColor sc.backHotspots pt) sc.origin pt = true := by
  unfold claimMatches buttonHit
  by_cases ho : b.overrideGraphics
  · simp [ho, Rect.containsPt, Point.add_def]
  · simp only [ho, if_false]
    cases hb : b.hotspotType
    · simp [Rect.containsPt, Point.add_def]
    · simp
    · simp

lemma getButtonAtPointAux_spec (fc bc : Nat) (origin pt : Point) :
    ∀ l : List SceneButton,
      (getButtonAtPointAux fc bc origin pt l = -1 ∧
        ∀ b ∈ l, buttonHit b fc bc origin pt = false) ∨
      (∃ i : Nat, getButtonAtPointAux fc bc origin pt l = (i : Int) ∧
        ∃ b, l.get? i = some b ∧ buttonHit b fc bc origin pt = true ∧
          ∀ j b2, j < i → l.get? j = some b2 →
            buttonHit b2 fc bc origin pt = false) := by
  intro l
  induction l with
  | nil => exact Or.inl ⟨rfl, fun b hb => absurd hb (List.not_mem_nil b)⟩
  | cons b rest ih =>
    by_cases hb : buttonHit b fc bc origin pt = true
    · refine Or.inr ⟨0, ?_, b, rfl, hb, ?_⟩
      · simp [getButtonAtPointAux, hb]
      · intro j b2 hj _; omega
    · have hbf : buttonHit b fc bc origin pt = false :=
        Bool.eq_false_iff.mpr hb
      rcases ih with ⟨hrec, hall⟩ | ⟨i, hrec, b2, hget, hhit, hmin⟩
      · refine Or.inl ⟨?_, ?_⟩
        · simp [getButtonAtPointAux, hbf, hrec]
        · intro x hx
          rcases List.mem_cons.mp hx with rfl | hmem
          · exact hbf
          · exact hall x hmem
      · refine Or.inr ⟨i + 1, ?_, b2, hget, hhit, ?_⟩
        · have hne : (i : Int) ≠ -1 := by omega
          simp only [getButtonAtPointAux, hbf, if_false, hrec, hne]
          push_cast
          ring
        · intro j b3 hj hg
          cases j with
          | zero =>
            simp only [List.get?] at hg
            cases Option.some.inj hg
            exact hbf
          | succ k =>
            simp only [List.get?] at hg
            exact hmin k b3 (by omega) hg

/-- Scene::getButtonAtPoint returns the lowest index among the buttons
matching the claim's per-type conditions, iterating in declaration
order, and -1 exactly when no button matches. -/
theorem get_button_at_point_first_match (sc : Scene) (pt : Point) :
    (∀ i : Nat, sc.getButtonAtPoint pt = (i : Int) →
      ∃ b, sc.buttons.get? i = some b ∧ claimMatches sc pt b ∧
        ∀ j b2, j < i → sc.buttons.get? j = some b2 → ¬ claimMatches sc pt b2) ∧
    (sc.getButtonAtPoint pt = -1 ↔
      ∀ j b2, sc.buttons.get? j = some b2 → ¬ claimMatches sc pt b2) := by
  have hspec := getButtonAtPointAux_spec (hotspotColor sc.foreHotspots pt)
    (hotspotColor sc.backHotspots pt) sc.origin pt sc.buttons
  constructor
  · intro i hi
    rcases hspec with ⟨hrec, _⟩ | ⟨k, hrec, b2, hget, hhit, hmin⟩
    · rw [Scene.getButtonAtPoint] at hi
      rw [hrec] at hi
      omega
    · rw [Scene.getButtonAtPoint] at hi
      rw [hrec] at hi
      have hik : i = k := by omega
      subst hik
      refine ⟨b2, hget, (claimMatches_iff_buttonHit sc pt b2).mpr hhit, ?_⟩
      intro j b3 hj hg hcm
      have := hmin j b3 hj hg
      rw [(claimMatches_iff_buttonHit sc pt b3)] at hcm
      rw [this] at hcm
      cases hcm
  · rcases hspec with ⟨hrec, hall⟩ | ⟨k, hrec, b2, hget, hhit, _⟩
    · constructor
      · intro _ j b2 hg hcm
        rw [(claimMatches_iff_buttonHit sc pt b2)] at hcm
        rw [hall b2 (List.get?_mem hg)] at hcm
        cases hcm
      · intro _
        rw [Scene.getButtonAtPoint]
        exact hrec
    · constructor
      · intro hi
        rw [Scene.getButtonAtPoint] at hi
        rw [hrec] at hi
        omega
      · intro hnone
        exact absurd ((claimMatches_iff_buttonHit sc pt b2).mpr hhit)
          (hnone k b2 hget)

/-- A scene with two overlapping rectangle buttons, both containing
the origin-adjusted test point, used to exercise first-match-wins. -/
def overlapScene : Scene where
  origin := ⟨1, 1⟩
  buttons :=
    [{ hotspotType := .kRect, plane := 0, hotspot := ⟨0, 0, 10, 10⟩ },
      { hotspotType := .kRect, plane := 0, hotspot := ⟨0, 0, 20, 20⟩ }]

/-- Witness for the hit-test theorem: on the overlapping scene the
first button (index 0) wins. -/
theorem get_button_at_point_first_match_witness :
    ∃ b, overlapScene.buttons.get? 0 = some b ∧
      claimMatches overlapScene ⟨2, 3⟩ b ∧
      ∀ j b2, j < 0 → overlapScene.buttons.get? j = some b2 →
        ¬ claimMatches overlapScene ⟨2, 3⟩ b2 :=
  (get_button_at_point_first_match overlapScene ⟨2, 3⟩).1 0 rfl

/-- Sliding puzzle state relevant to click handling: the piece array
and the move tables (one permutation table per button direction; the
C++ array has kNumButtons * 2 tables, modelled by the list length). -/
structure SlidingPuzzle where
  pieces : List Nat
  moveTables : List (List Nat)
deriving DecidableEq, Repr

/-- The permutation loop of SlidingPuzzle::handleButtonClick
(merlin.cpp:1494-1497): pieces[i] = oldPieces[moveTables[num][i]]. -/
def slidePermute (p : SlidingPuzzle) (num : Int) : List Nat :=
  (List.range p.pieces.length).map fun i =>
    p.pieces.getD ((p.moveTables.getD num.toNat []).getD i 0) 0

/-- The win-check loop of SlidingPuzzle::handleButtonClick
(merlin.cpp:1501-1507): every piece at its home position. -/
def slideIsWin (l : List Nat) : Bool :=
  (List.range l.length).all fun i => decide (l.getD i 0 = i)

/-- SlidingPuzzle::handleButtonClick (merlin.cpp:1492-1517): for a
button number in range, permute the pieces through the button's move
table, then return kWin when every piece is at its home position, else
kDone; numbers out of range (including -1) leave the pieces unchanged
and return kDone. -/
def SlidingPuzzle.handleButtonClick (p : SlidingPuzzle) (num : Int) :
    SlidingPuzzle × BoltRsp :=
  if 0 ≤ num ∧ num < (p.moveTables.length : Int) then
    let newPieces := slidePermute p num
    ({ p with pieces := newPieces },
      if slideIsWin newPieces then .kWin else .kDone)
  else
    (p, .kDone)

lemma slidePermute_length (p : SlidingPuzzle) (num : Int) :
    (slidePermute p num).length = p.pieces.length := by
  unfold slidePermute
  rw [List.length_map, List.length_range]

lemma slidePermute_getD (p : SlidingPuzzle) (num : Int) (i : Nat)
    (hi : i < p.pieces.length) :
    (slidePermute p num).getD i 0 =
      p.pieces.getD ((p.moveTables.getD num.toNat []).getD i 0) 0 := by
  unfold slidePermute
  rw [List.getD_eq_getElem?_getD, List.getElem?_map, List.getElem?_range hi]
  rfl

lemma slideIsWin_iff (l : List Nat) :
    slideIsWin l = true ↔ ∀ i, i < l.length → l.getD i 0 = i := by
  unfold slideIsWin
  rw [List.all_eq_true]
  constructor
  · intro h i hi
    exact of_decide_eq_true (h i (List.mem_range.mpr hi))
  · intro h i hi
    exact decide_eq_true (h i (List.mem_range.mp hi))

/-- Clicking a sliding-puzzle button with number in range replaces the
piece array by the permutation through that button's move table and
reports kWin exactly when the result is the identity arrangement;
clicking with number -1 leaves the pieces unchanged and reports kDone. -/
theorem sliding_puzzle_click_spec (p : SlidingPuzzle) :
    (∀ num : Int, 0 ≤ num → num < (p.moveTables.length : Int) →
      (p.handleButtonClick num).1.pieces.length = p.pieces.length ∧
      (∀ i, i < p.pieces.length →
        (p.handleButtonClick num).1.pieces.getD i 0 =
          p.pieces.getD ((p.moveTables.getD num.toNat []).getD i 0) 0) ∧
      ((p.handleButtonClick num).2 = .kWin ↔
        ∀ i, i < p.pieces.length →
          (p.handleButtonClick num).1.pieces.getD i 0 = i)) ∧
    p.handleButtonClick (-1) = (p, .kDone) := by
  constructor
  · intro num h0 hlt
    have hcond : 0 ≤ num ∧ num < (p.moveTables.length : Int) := ⟨h0, hlt⟩
    have hres : p.handleButtonClick num =
        ({ p with pieces := slidePermute p num },
          if slideIsWin (slidePermute p num) then .kWin else .kDone) := by
      unfold SlidingPuzzle.handleButtonClick
      rw [if_pos hcond]
    rw [hres]
    refine ⟨slidePermute_length p num, fun i hi => slidePermute_getD p num i hi, ?_⟩
    constructor
    · intro hw i hi
      rcases hb : slideIsWin (slidePermute p num) with _ | _
      · rw [hb] at hw
        simp at hw
      · have := (slideIsWin_iff (slidePermute p num)).mp hb
        exact this i (by rw [slidePermute_length]; exact hi)
    · intro hall
      have hb : slideIsWin (slidePermute p num) = true := by
        rw [slideIsWin_iff]
        intro i hi
        exact hall i (by rw [slidePermute_length] at hi; exact hi)
      show (if slideIsWin (slidePermute p num) then BoltRsp.kWin else .kDone) = .kWin
      rw [hb]
      rfl
  · unfold SlidingPuzzle.handleButtonClick
    have hne : ¬ (0 ≤ (-1 : Int) ∧ (-1 : Int) < (p.moveTables.length : Int)) := by
      intro h
      omega
    rw [if_neg hne]

/-- Witness for the sliding-puzzle theorem: pieces [1, 0] with the swap
move table [1, 0]; clicking button 0 sorts the pieces and wins. -/
theorem sliding_puzzle_click_spec_witness :
    ((⟨[1, 0], [[1, 0]]⟩ : SlidingPuzzle).handleButtonClick
        0).1.pieces.length = 2 ∧
    (∀ i, i < 2 →
      ((⟨[1, 0], [[1, 0]]⟩ : SlidingPuzzle).handleButtonClick
          0).1.pieces.getD i 0 =
        [1, 0].getD ([1, 0].getD i 0) 0) ∧
    (((⟨[1, 0], [[1, 0]]⟩ : SlidingPuzzle).handleButtonClick 0).2 = .kWin ↔
      ∀ i, i < 2 →
        ((⟨[1, 0], [[1, 0]]⟩ : SlidingPuzzle).handleButtonClick
            0).1.pieces.getD i 0 = i) :=
  (sliding_puzzle_click_spec ⟨[1, 0], [[1, 0]]⟩).1 0 (by decide) (by decide)

/-- States of the memory-puzzle animation sub-state-machine
(MemoryPuzzle::AnimStatus). -/
inductive AnimStatus where
  | kIdle
  | kPlaying
  | kWindingDown
  | kStopping
deriving DecidableEq, Repr

/-- The memory puzzle's timing constants, declared in memory_puzzle.h
(whose values are not part of this snapshot): the fixed per-frame delay
and the minimum animation play time, both in milliseconds. -/
structure MPConsts where
  kFrameDelayMs : Nat
  kMinAnimPlayTimeMs : Nat
deriving DecidableEq, Repr

/-- One animation frame of a memory-puzzle item; delayFrames is the
int16 frame-hold count, with -1 flagging a wait-for-end frame. -/
structure ItemFrame where
  delayFrames : Int
deriving DecidableEq, Repr

/-- One memory-puzzle item: its frame list and the sample count of its
associated sound (the only sound attribute the timing logic reads). -/
structure MPItem where
  frames : List ItemFrame
  soundNumSamples : Nat
deriving DecidableEq, Repr

/-- The memory puzzle's mutable state (MemoryPuzzle fields; times are
uint32 milliseconds). -/
structure MemoryPuzzle where
  animStatus : AnimStatus
  animItem : Nat
  animFrame : Nat
  animSubFrame : Int
  animStartTime : Nat
  animSoundTime : Nat
  animPlayTime : Nat
  frameTime : Nat
  playbackActive : Bool
  playbackStep : Nat
  matchCount : Nat
  goal : Nat
  finalGoal : Nat
  foo : Nat
  itemList : List MPItem
  solution : List Nat
  failSoundNumSamples : Nat
deriving DecidableEq, Repr

/-- The animation frame the kPlaying/kWindingDown logic currently looks
at: item.frames[animFrame]. -/
def currentFrame (s : MemoryPuzzle) : ItemFrame :=
  (s.itemList.getD s.animItem ⟨[], 0⟩).frames.getD s.animFrame ⟨0⟩

/-- MemoryPuzzle::startAnimation (part_000:244-278), state part: enter
kPlaying on the given item from frame 0; the estimated sound duration
is the sample count divided by 22; the play time is that estimate,
overridden to 400 ms when the info field foo equals 0x4D, else raised
to the floor kMinAnimPlayTimeMs. -/
def startAnimation (c : MPConsts) (now : Nat) (itemNum : Nat)
    (soundNumSamples : Nat) (s : MemoryPuzzle) : MemoryPuzzle :=
  let soundTime := soundNumSamples / 22
  let playTime :=
    if s.foo = 0x4d then 400
    else if soundTime < c.kMinAnimPlayTimeMs then c.kMinAnimPlayTimeMs
    else soundTime
  { s with
    animStatus := .kPlaying
    animItem := itemNum
    animFrame := 0
    animSubFrame := 0
    animStartTime := now
    animSoundTime := soundTime
    animPlayTime := playTime
    frameTime := now }

/-- MemoryPuzzle::startPlayback (part_000:222-225). -/
def startPlayback (s : MemoryPuzzle) : MemoryPuzzle :=
  { s with playbackActive := true, playbackStep := 0 }

/-- MemoryPuzzle::handlePlayback (part_000:227-242): while playback is
active, start the animation of the next solution item up to the
current goal, then deactivate; both paths queue a drive message and
consume the message (kDone); inactive playback passes. -/
def handlePlayback (c : MPConsts) (now : Nat) (s : MemoryPuzzle) :
    MemoryPuzzle × BoltRsp × Option BoltMsgType :=
  if ¬ s.playbackActive then
    (s, .kPass, none)
  else if s.playbackStep < s.goal then
    let itemNum := s.solution.getD s.playbackStep 0
    let s1 := startAnimation c now itemNum
      ((s.itemList.getD itemNum ⟨[], 0⟩).soundNumSamples) s
    ({ s1 with playbackStep := s.playbackStep + 1 }, .kDone, some .kDrive)
  else
    ({ s with playbackActive := false }, .kDone, some .kDrive)

/-- MemoryPuzzle::handleAnimation (part_000:280-380): the animation
state machine. kIdle passes; kPlaying advances frames every
kFrameDelayMs, holding on wait-for-end frames, and once the elapsed
time since animation start reaches the play time moves to kWindingDown
(from a wait-for-end frame) or kStopping; kWindingDown plays the
trailing frames out; kStopping waits out the sound duration and
returns to kIdle. -/
def handleAnimation (c : MPConsts) (now : Nat) (s : MemoryPuzzle) :
    MemoryPuzzle × BoltRsp × Option BoltMsgType :=
  match s.animStatus with
  | .kIdle => (s, .kPass, none)
  | .kPlaying =>
    let frame := currentFrame s
    let frameElapsed := sub32 now s.frameTime
    if frameElapsed ≥ c.kFrameDelayMs then
      let s1 := { s with frameTime := (s.frameTime + c.kFrameDelayMs) % 4294967296 }
      let totalElapsed := sub32 now s.animStartTime
      if totalElapsed ≥ s.animPlayTime then
        if frame.delayFrames = -1 then
          ({ s1 with
              animFrame := s.animFrame + 1
              animSubFrame := 0
              frameTime := now
              animStatus := .kWindingDown }, .kDone, some .kDrive)
        else
          ({ s1 with animStatus := .kStopping }, .kDone, some .kDrive)
      else
        if frame.delayFrames = -1 then
          (s1, .kDone, none)
        else
          let sub := s.animSubFrame + 1
          if sub ≥ frame.delayFrames then
            let f1 := s.animFrame + 1
            let f2 :=
              if f1 ≥ (s.itemList.getD s.animItem ⟨[], 0⟩).frames.length then 0
              else f1
            ({ s1 with animFrame := f2, animSubFrame := 0 }, .kDone, none)
          else
            ({ s1 with animSubFrame := sub }, .kDone, none)
    else
      (s, .kDone, none)
  | .kWindingDown =>
    if s.animFrame ≥ (s.itemList.getD s.animItem ⟨[], 0⟩).frames.length then
      ({ s with animStatus := .kStopping }, .kDone, some .kDrive)
    else
      let frame := currentFrame s
      let frameElapsed := sub32 now s.frameTime
      if frameElapsed ≥ c.kFrameDelayMs then
        let s1 := { s with frameTime := (s.frameTime + c.kFrameDelayMs) % 4294967296 }
        if frame.delayFrames ≠ -1 then
          let sub := s.animSubFrame + 1
          if sub ≥ frame.delayFrames then
            ({ s1 with animFrame := s.animFrame + 1, animSubFrame := 0 }, .kDone, none)
          else
            ({ s1 with animSubFrame := sub }, .kDone, none)
        else
          ({ s1 with animFrame := s.animFrame + 1, animSubFrame := 0 }, .kDone, none)
      else
        (s, .kDone, none)
  | .kStopping =>
    let totalElapsed := sub32 now s.animStartTime
    if totalElapsed ≥ s.animSoundTime then
      ({ s with animStatus := .kIdle }, .kDone, some .kDrive)
    else
      (s, .kDone, none)

/-- MemoryPuzzle::handleButtonClick (part_000:202-220): a click on an
item index either earns a match (next expected solution element) and
plays that item's animation, or resets the match count, plays the fail
animation and restarts playback; out-of-range numbers are ignored. -/
def MemoryPuzzle.handleButtonClick (c : MPConsts) (now : Nat) (num : Int)
    (s : MemoryPuzzle) : MemoryPuzzle × BoltRsp :=
  if 0 ≤ num ∧ num < (s.itemList.length : Int) then
    let n := num.toNat
    if s.solution.getD s.matchCount 0 = n then
      let s1 := { s with matchCount := s.matchCount + 1 }
      (startAnimation c now n ((s.itemList.getD n ⟨[], 0⟩).soundNumSamples) s1, .kDone)
    else
      let s1 := { s with matchCount := 0 }
      let s2 := startAnimation c now n s.failSoundNumSamples s1
      (startPlayback s2, .kDone)
  else
    (s, .kDone)

/-- Result of one MemoryPuzzle::handleMsg dispatch: the new puzzle
state, the response, the setNextMsg effect, and whether branchWin was
reported to the game. -/
structure MPResult where
  state : MemoryPuzzle
  rsp : BoltRsp
  nextMsg : Option BoltMsgType
  win : Bool
deriving DecidableEq, Repr

/-- MemoryPuzzle::handleMsg (part_000:156-189): animation first, then
playback, then the win check against finalGoal, then the intermediate
goal escalation (reset matches, goal += 3, restart playback), then the
popup (modelled by its response popupRsp), then the synthesized
click messages, finally delegation to the scene (modelled by
sceneRsp). -/
def MemoryPuzzle.handleMsg (c : MPConsts) (now : Nat)
    (popupRsp sceneRsp : BoltRsp) (msg : BoltMsg) (s : MemoryPuzzle) :
    MPResult :=
  match handleAnimation c now s with
  | (s1, r1, p1) =>
    if r1 ≠ .kPass then ⟨s1, r1, p1, false⟩
    else
      match handlePlayback c now s1 with
      | (s2, r2, p2) =>
        if r2 ≠ .kPass then ⟨s2, r2, p2, false⟩
        else if s2.matchCount ≥ s2.finalGoal then ⟨s2, .kDone, none, true⟩
        else if s2.matchCount ≥ s2.goal then
          ⟨startPlayback { s2 with matchCount := 0, goal := s2.goal + 3 },
            .kDone, none, false⟩
        else if popupRsp ≠ .kPass then ⟨s2, popupRsp, none, false⟩
        else
          match msg.type with
          | .kPopupButtonClick => ⟨s2, .kDone, none, false⟩
          | .kClickButton =>
            match s2.handleButtonClick c now msg.num with
            | (s3, r3) => ⟨s3, r3, none, false⟩
          | _ => ⟨s2, sceneRsp, none, false⟩

/-- Modelled from the spec: Common::RandomSource::getRandomNumber(max)
(not part of this snapshot) returns the next value of the random
stream, uniformly distributed on [0, max] and independent across
calls; the model reduces the i-th underlying draw to the range. -/
def getRandomNumber (rand : Nat → Nat) (i : Nat) (maxVal : Nat) : Nat :=
  rand i % (maxVal + 1)

/-- The solution-generation loop of MemoryPuzzle::init
(part_000:144-147): finalGoal successive draws of
getRandomNumber(itemCount - 1). -/
def genSolution (rand : Nat → Nat) (finalGoal itemCount : Nat) : List Nat :=
  (List.range finalGoal).map fun i => getRandomNumber rand i (itemCount - 1)

lemma handleAnimation_idle (c : MPConsts) (now : Nat) (s : MemoryPuzzle)
    (h : s.animStatus = .kIdle) : handleAnimation c now s = (s, .kPass, none) := by
  unfold handleAnimation
  rw [h]

lemma handlePlayback_inactive (c : MPConsts) (now : Nat) (s : MemoryPuzzle)
    (h : s.playbackActive = false) : handlePlayback c now s = (s, .kPass, none) := by
  unfold handlePlayback
  rw [h]
  simp

lemma handleMsg_eq_idle (c : MPConsts) (now : Nat) (pr sr : BoltRsp)
    (msg : BoltMsg) (s : MemoryPuzzle)
    (hA : s.animStatus = .kIdle) (hP : s.playbackActive = false) :
    s.handleMsg c now pr sr msg =
      if s.matchCount ≥ s.finalGoal then ⟨s, .kDone, none, true⟩
      else if s.matchCount ≥ s.goal then
        ⟨startPlayback { s with matchCount := 0, goal := s.goal + 3 },
          .kDone, none, false⟩
      else if pr ≠ .kPass then ⟨s, pr, none, false⟩
      else
        match msg.type with
        | .kPopupButtonClick => ⟨s, .kDone, none, false⟩
        | .kClickButton =>
          match s.handleButtonClick c now msg.num with
          | (s3, r3) => ⟨s3, r3, none, false⟩
        | _ => ⟨s, sr, none, false⟩ := by
  unfold MemoryPuzzle.handleMsg
  rw [handleAnimation_idle c now s hA]
  simp only [handlePlayback_inactive c now s hP]
  simp

/-- A synthesized scene button-click message carrying an item index. -/
def clickButtonMsg (num0 : Nat) : BoltMsg :=
  { type := .kClickButton, num := (num0 : Int) }

/-- Memory-puzzle progression when neither an animation nor playback is
active: a click on the next expected solution element increments the
match count and starts that item's animation; a click on any other item
index resets the match count and restarts playback from step 0; a match
count at the intermediate goal (below finalGoal) is reset while the
goal grows by exactly 3 and playback restarts; a match count at
finalGoal reports the win. -/
theorem memory_puzzle_progression (c : MPConsts) (now : Nat)
    (popupRsp sceneRsp : BoltRsp) (msg : BoltMsg) (s : MemoryPuzzle)
    (hA : s.animStatus = .kIdle) (hP : s.playbackActive = false) :
    (s.matchCount < s.goal → s.matchCount < s.finalGoal →
      ∀ num0 : Nat, num0 < s.itemList.length →
        (s.solution.getD s.matchCount 0 = num0 →
          (s.handleMsg c now .kPass sceneRsp (clickButtonMsg num0)).state.matchCount
              = s.matchCount + 1 ∧
          (s.handleMsg c now .kPass sceneRsp (clickButtonMsg num0)).state.animStatus
              = .kPlaying ∧
          (s.handleMsg c now .kPass sceneRsp (clickButtonMsg num0)).state.animItem
              = num0 ∧
          (s.handleMsg c now .kPass sceneRsp (clickButtonMsg num0)).rsp = .kDone ∧
          (s.handleMsg c now .kPass sceneRsp (clickButtonMsg num0)).win = false) ∧
        (s.solution.getD s.matchCount 0 ≠ num0 →
          (s.handleMsg c now .kPass sceneRsp (clickButtonMsg num0)).state.matchCount
              = 0 ∧
          (s.handleMsg c now .kPass sceneRsp (clickButtonMsg num0)).state.playbackActive
              = true ∧
          (s.handleMsg c now .kPass sceneRsp (clickButtonMsg num0)).state.playbackStep
              = 0 ∧
          (s.handleMsg c now .kPass sceneRsp (clickButtonMsg num0)).state.animStatus
              = .kPlaying ∧
          (s.handleMsg c now .kPass sceneRsp (clickButtonMsg num0)).state.animItem
              = num0 ∧
          (s.handleMsg c now .kPass sceneRsp (clickButtonMsg num0)).rsp = .kDone ∧
          (s.handleMsg c now .kPass sceneRsp (clickButtonMsg num0)).win = false)) ∧
    (s.matchCount ≥ s.goal → s.matchCount < s.finalGoal →
      (s.handleMsg c now popupRsp sceneRsp msg).state.matchCount = 0 ∧
      (s.handleMsg c now popupRsp sceneRsp msg).state.goal = s.goal + 3 ∧
      (s.handleMsg c now popupRsp sceneRsp msg).state.playbackActive = true ∧
      (s.handleMsg c now popupRsp sceneRsp msg).state.playbackStep = 0 ∧
      (s.handleMsg c now popupRsp sceneRsp msg).rsp = .kDone ∧
      (s.handleMsg c now popupRsp sceneRsp msg).win = false) ∧
    (s.matchCount ≥ s.finalGoal →
      (s.handleMsg c now popupRsp sceneRsp msg).state = s ∧
      (s.handleMsg c now popupRsp sceneRsp msg).rsp = .kDone ∧
      (s.handleMsg c now popupRsp sceneRsp msg).win = true) := by
  refine ⟨?_, ?_, ?_⟩
  · intro hg hf num0 hlt
    have hred := handleMsg_eq_idle c now .kPass sceneRsp (clickButtonMsg num0) s hA hP
    rw [if_neg (by omega), if_neg (by omega), if_neg (by simp)] at hred
    have hguard : 0 ≤ ((num0 : Int)) ∧ ((num0 : Int)) < (s.itemList.length : Int) := by
      constructor <;> omega
    constructor
    · intro hsol
      have hclick : s.handleButtonClick c now ((num0 : Int)) =
          (startAnimation c now num0
            ((s.itemList.getD num0 ⟨[], 0⟩).soundNumSamples)
            { s with matchCount := s.matchCount + 1 }, .kDone) := by
        unfold MemoryPuzzle.handleButtonClick
        rw [if_pos hguard]
        simp only [Int.toNat_ofNat]
        rw [if_pos hsol]
      rw [hred]
      simp only [clickButtonMsg]
      rw [hclick]
      simp [startAnimation]
    · intro hsol
      have hsol2 : ¬ (s.solution.getD s.matchCount 0 = ((num0 : Int)).toNat) := by
        simpa using hsol
      have hclick : s.handleButtonClick c now ((num0 : Int)) =
          (startPlayback (startAnimation c now num0 s.failSoundNumSamples
            { s with matchCount := 0 }), .kDone) := by
        unfold MemoryPuzzle.handleButtonClick
        rw [if_pos hguard, if_neg hsol2]
        simp
      rw [hred]
      simp only [clickButtonMsg]
      rw [hclick]
      simp [startAnimation, startPlayback]
  · intro hg hf
    have hred := handleMsg_eq_idle c now popupRsp sceneRsp msg s hA hP
    rw [if_neg (by omega), if_pos (by omega)] at hred
    rw [hred]
    simp [startPlayback]
  · intro hf
    have hred := handleMsg_eq_idle c now popupRsp sceneRsp msg s hA hP
    rw [if_pos (by omega)] at hred
    rw [hred]
    exact ⟨rfl, rfl, rfl⟩

/-- A concrete idle memory-puzzle state used by the witnesses: two
items, goal 3, finalGoal 6, solution 0 1 0 1 0 1. -/
def mpSample : MemoryPuzzle where
  animStatus := .kIdle
  animItem := 0
  animFrame := 0
  animSubFrame := 0
  animStartTime := 0
  animSoundTime := 0
  animPlayTime := 0
  frameTime := 0
  playbackActive := false
  playbackStep := 0
  matchCount := 0
  goal := 3
  finalGoal := 6
  foo := 0
  itemList := [⟨[⟨-1⟩], 2200⟩, ⟨[⟨-1⟩], 4400⟩]
  solution := [0, 1, 0, 1, 0, 1]
  failSoundNumSamples := 100

/-- Witness for the memory-puzzle progression theorem: on the sample
state, clicking item 0 (the next expected element) as well as clicking
item 1 (a mismatch) behave as stated. -/
theorem memory_puzzle_progression_witness :
    ((mpSample.solution.getD mpSample.matchCount 0 = 0 →
      (mpSample.handleMsg ⟨50, 500⟩ 7 .kPass .kPass
          (clickButtonMsg 0)).state.matchCount = mpSample.matchCount + 1 ∧
      (mpSample.handleMsg ⟨50, 500⟩ 7 .kPass .kPass
          (clickButtonMsg 0)).state.animStatus = .kPlaying ∧
      (mpSample.handleMsg ⟨50, 500⟩ 7 .kPass .kPass
          (clickButtonMsg 0)).state.animItem = 0 ∧
      (mpSample.handleMsg ⟨50, 500⟩ 7 .kPass .kPass
          (clickButtonMsg 0)).rsp = .kDone ∧
      (mpSample.handleMsg ⟨50, 500⟩ 7 .kPass .kPass
          (clickButtonMsg 0)).win = false) ∧
    (mpSample.solution.getD mpSample.matchCount 0 ≠ 0 →
      (mpSample.handleMsg ⟨50, 500⟩ 7 .kPass .kPass
          (clickButtonMsg 0)).state.matchCount = 0 ∧
      (mpSample.handleMsg ⟨50, 500⟩ 7 .kPass .kPass
          (clickButtonMsg 0)).state.playbackActive = true ∧
      (mpSample.handleMsg ⟨50, 500⟩ 7 .kPass .kPass
          (clickButtonMsg 0)).state.playbackStep = 0 ∧
      (mpSample.handleMsg ⟨50, 500⟩ 7 .kPass .kPass
          (clickButtonMsg 0)).state.animStatus = .kPlaying ∧
      (mpSample.handleMsg ⟨50, 500⟩ 7 .kPass .kPass
          (clickButtonMsg 0)).state.animItem = 0 ∧
      (mpSample.handleMsg ⟨50, 500⟩ 7 .kPass .kPass
          (clickButtonMsg 0)).rsp = .kDone ∧
      (mpSample.handleMsg ⟨50, 500⟩ 7 .kPass .kPass
          (clickButtonMsg 0)).win = false)) :=
  (memory_puzzle_progression ⟨50, 500⟩ 7 .kPass .kPass (clickButtonMsg 0)
    mpSample rfl rfl).1 (by decide) (by decide) 0 (by decide)

/-- The memory-puzzle solution: exactly finalGoal indices, the i-th
being the i-th independent uniform draw reduced to [0, itemCount); in
particular every element is below itemCount, and element i depends only
on draw i (drawn with replacement). -/
theorem memory_solution_gen (rand : Nat → Nat) (finalGoal itemCount : Nat)
    (h : 0 < itemCount) :
    (genSolution rand finalGoal itemCount).length = finalGoal ∧
    ∀ i, i < finalGoal →
      (genSolution rand finalGoal itemCount).getD i 0 = rand i % itemCount ∧
      (genSolution rand finalGoal itemCount).getD i 0 < itemCount := by
  have hsub : itemCount - 1 + 1 = itemCount := by omega
  constructor
  · unfold genSolution
    rw [List.length_map, List.length_range]
  · intro i hi
    have hv : (genSolution rand finalGoal itemCount).getD i 0 =
        rand i % itemCount := by
      unfold genSolution getRandomNumber
      rw [List.getD_eq_getElem?_getD, List.getElem?_map, List.getElem?_range hi]
      simp [hsub]
    refine ⟨hv, ?_⟩
    rw [hv]
    exact Nat.mod_lt _ h

/-- Witness for the solution-generation theorem at a concrete stream
and sizes: 3 draws over 2 items. -/
theorem memory_solution_gen_witness :
    (genSolution (fun i => i * 7) 3 2).length = 3 ∧
    ∀ i, i < 3 →
      (genSolution (fun i => i * 7) 3 2).getD i 0 = (i * 7) % 2 ∧
      (genSolution (fun i => i * 7) 3 2).getD i 0 < 2 :=
  memory_solution_gen (fun i => i * 7) 3 2 (by decide)

/-- Memory-puzzle animation timing: the estimated sound duration is
the sample count divided by 22 (integer milliseconds); the play time is
that estimate raised to the floor kMinAnimPlayTimeMs, except that foo =
0x4D hard-codes 400 ms; in kPlaying the animation holds on a
wait-for-end frame (delayFrames = -1) while the elapsed time since
animation start is below the play time, and leaves kPlaying only once
that elapsed time reaches the play time. -/
theorem memory_anim_timing (c : MPConsts) :
    (∀ (now itemNum samples : Nat) (s : MemoryPuzzle),
      (startAnimation c now itemNum samples s).animSoundTime = samples / 22 ∧
      (startAnimation c now itemNum samples s).animPlayTime =
        (if s.foo = 0x4d then 400
          else Nat.max c.kMinAnimPlayTimeMs (samples / 22))) ∧
    (∀ (now : Nat) (s : MemoryPuzzle), s.animStatus = .kPlaying →
      (currentFrame s).delayFrames = -1 →
      sub32 now s.animStartTime < s.animPlayTime →
      (handleAnimation c now s).1.animFrame = s.animFrame ∧
        (handleAnimation c now s).1.animStatus = .kPlaying) ∧
    (∀ (now : Nat) (s : MemoryPuzzle), s.animStatus = .kPlaying →
      (handleAnimation c now s).1.animStatus ≠ .kPlaying →
      sub32 now s.animStartTime ≥ s.animPlayTime) := by
  refine ⟨?_, ?_, ?_⟩
  · intro now itemNum samples s
    constructor
    · rfl
    · show (if s.foo = 0x4d then 400
          else if samples / 22 < c.kMinAnimPlayTimeMs then c.kMinAnimPlayTimeMs
          else samples / 22) = _
      by_cases hfoo : s.foo = 0x4d
      · rw [if_pos hfoo, if_pos hfoo]
      · rw [if_neg hfoo, if_neg hfoo]
        by_cases hm : samples / 22 < c.kMinAnimPlayTimeMs
        · rw [if_pos hm]
          exact (Nat.max_eq_left (le_of_lt hm)).symm
        · rw [if_neg hm]
          exact (Nat.max_eq_right (Nat.le_of_not_lt hm)).symm
  · intro now s hstat hwait hlt
    unfold handleAnimation
    rw [hstat]
    by_cases hfe : sub32 now s.frameTime ≥ c.kFrameDelayMs
    · rw [if_pos hfe, if_neg (by omega), if_pos hwait]
      exact ⟨rfl, rfl⟩
    · rw [if_neg hfe]
      exact ⟨rfl, hstat⟩
  · intro now s hstat hne
    by_contra hlt
    push_neg at hlt
    apply hne
    unfold handleAnimation
    rw [hstat]
    by_cases hfe : sub32 now s.frameTime ≥ c.kFrameDelayMs
    · rw [if_pos hfe, if_neg (by omega)]
      by_cases hwait : (currentFrame s).delayFrames = -1
      · rw [if_pos hwait]
      · rw [if_neg hwait]
        by_cases hsub : s.animSubFrame + 1 ≥ (currentFrame s).delayFrames
        · rw [if_pos hsub]
        · rw [if_neg hsub]
    · rw [if_neg hfe]
      exact hstat

/-- Witness for the animation-timing theorem: its hold clause applied
to a concrete kPlaying state on a wait-for-end frame before the play
time has elapsed. -/
theorem memory_anim_timing_witness :
    (handleAnimation ⟨50, 500⟩ 10
        { mpSample with
          animStatus := .kPlaying, animPlayTime := 500 }).1.animFrame =
      ({ mpSample with
          animStatus := .kPlaying, animPlayTime := 500 } : MemoryPuzzle).animFrame ∧
    (handleAnimation ⟨50, 500⟩ 10
        { mpSample with
          animStatus := .kPlaying, animPlayTime := 500 }).1.animStatus =
      .kPlaying :=
  (memory_anim_timing ⟨50, 500⟩).2.1 10
    { mpSample with animStatus := .kPlaying, animPlayTime := 500 }
    rfl (by decide) (by decide)

/-- Byte read from a resource span (Common::Span::getUint8At); reads
model the span as a byte list, defaulting to 0 past the end. -/
def readU8 (b : List Nat) (o : Nat) : Nat := b.getD o 0

/-- Big-endian 16-bit read (Common::Span::getUint16BEAt). -/
def readU16BE (b : List Nat) (o : Nat) : Nat :=
  256 * readU8 b o + readU8 b (o + 1)

/-- Big-endian 32-bit read (Common::Span::getUint32BEAt). -/
def readU32BE (b : List Nat) (o : Nat) : Nat :=
  65536 * readU16BE b o + readU16BE b (o + 2)

/-- Big-endian signed 16-bit read (Common::Span::getInt16BEAt). -/
def readS16BE (b : List Nat) (o : Nat) : Int :=
  let v := readU16BE b o
  if v ≥ 32768 then (v : Int) - 65536 else (v : Int)

/-- Modelled from the spec: the Funhouse::Rect span constructor (not
part of this snapshot) decodes four big-endian int16 edge fields at
consecutive offsets. -/
def loadRect (src : List Nat) (o : Nat) : Rect :=
  ⟨readS16BE src o, readS16BE src (o + 2), readS16BE src (o + 4),
    readS16BE src (o + 6)⟩

/-- BltScene record (scene.cpp:32-56), type 32, size 0x24; resource
ids are kept as raw 32-bit values. -/
structure BltScene where
  forePlaneId : Nat
  backPlaneId : Nat
  numSprites : Nat
  spritesId : Nat
  colorCyclesId : Nat
  numButtons : Nat
  buttonsId : Nat
  originX : Int
  originY : Int
deriving DecidableEq, Repr

def BltScene.kType : Nat := 32

def BltScene.kSize : Nat := 0x24

/-- BltScene::load (scene.cpp:35-46); bytes 0xD..0x15 are unknown and
skipped. -/
def BltScene.load (src : List Nat) : BltScene :=
  { forePlaneId := readU32BE src 0
    backPlaneId := readU32BE src 4
    numSprites := readU8 src 0x8
    spritesId := readU32BE src 0xA
    colorCyclesId := readU32BE src 0x16
    numButtons := readU16BE src 0x1A
    buttonsId := readU32BE src 0x1C
    originX := readS16BE src 0x20
    originY := readS16BE src 0x22 }

/-- BltPlane record (scene.cpp:58-70), type 26, size 0x10. -/
structure BltPlane where
  imageId : Nat
  paletteId : Nat
  hotspotsId : Nat
deriving DecidableEq, Repr

def BltPlane.kType : Nat := 26

def BltPlane.kSize : Nat := 0x10

/-- BltPlane::load (scene.cpp:61-65); bytes 0xC..0xF are unused. -/
def BltPlane.load (src : List Nat) : BltPlane :=
  { imageId := readU32BE src 0
    paletteId := readU32BE src 4
    hotspotsId := readU32BE src 8 }

/-- BltButtonGraphicElement record (scene.cpp:72-90), type 30, size
0xE. -/
structure BltButtonGraphicElement where
  type : Nat
  hoveredId : Nat
  idleId : Nat
deriving DecidableEq, Repr

def BltButtonGraphicElement.kType : Nat := 30

def BltButtonGraphicElement.kSize : Nat := 0xE

/-- BltButtonGraphicElement::load (scene.cpp:80-85); the unknown field
at 2 is skipped. -/
def BltButtonGraphicElement.load (src : List Nat) : BltButtonGraphicElement :=
  { type := readU16BE src 0
    hoveredId := readU32BE src 6
    idleId := readU32BE src 0xA }

/-- BltButtonElement record (scene.cpp:94-117), type 31, size 0x14. -/
structure BltButtonElement where
  type : Nat
  rect : Rect
  plane : Nat
  numGraphics : Nat
  graphicsId : Nat
deriving DecidableEq, Repr

def BltButtonElement.kType : Nat := 31

def BltButtonElement.kSize : Nat := 0x14

/-- BltButtonElement::load (scene.cpp:97-104); the unknown field at
0xE is skipped. -/
def BltButtonElement.load (src : List Nat) : BltButtonElement :=
  { type := readU16BE src 0
    rect := loadRect src 2
    plane := readU16BE src 0xA
    numGraphics := readU16BE src 0xC
    graphicsId := readU32BE src 0x10 }

/-- BltMemoryPuzzleInfo record (part_000:29-40), size 0x10. -/
structure BltMemoryPuzzleInfo where
  finalGoal : Nat
  foo : Nat
deriving DecidableEq, Repr

def BltMemoryPuzzleInfo.kSize : Nat := 0x10

/-- BltMemoryPuzzleInfo::load (part_000:32-36); the remaining fields
are unknown timing parameters and skipped. -/
def BltMemoryPuzzleInfo.load (src : List Nat) : BltMemoryPuzzleInfo :=
  { finalGoal := readU16BE src 2
    foo := readU16BE src 8 }

/-- BltMemoryPuzzleItem record (part_000:44-60), size 0x10. -/
structure BltMemoryPuzzleItem where
  numFrames : Nat
  framesId : Nat
  paletteId : Nat
  colorCyclesId : Nat
  soundId : Nat
deriving DecidableEq, Repr

def BltMemoryPuzzleItem.kSize : Nat := 0x10

/-- BltMemoryPuzzleItem::load (part_000:47-53); the sound id is a
16-bit short id. -/
def BltMemoryPuzzleItem.load (src : List Nat) : BltMemoryPuzzleItem :=
  { numFrames := readU16BE src 0
    framesId := readU32BE src 2
    paletteId := readU32BE src 6
    colorCyclesId := readU32BE src 0xA
    soundId := readU16BE src 0xE }

/-- BltMemoryPuzzleItemFrame record (part_000:64-78), size 0xA. -/
structure BltMemoryPuzzleItemFrame where
  posX : Int
  posY : Int
  imageId : Nat
  delayFrames : Int
deriving DecidableEq, Repr

def BltMemoryPuzzleItemFrame.kSize : Nat := 0xA

/-- BltMemoryPuzzleItemFrame::load (part_000:67-73). -/
def BltMemoryPuzzleItemFrame.load (src : List Nat) : BltMemoryPuzzleItemFrame :=
  { posX := readS16BE src 0
    posY := readS16BE src 2
    imageId := readU32BE src 4
    delayFrames := readS16BE src 8 }

/-- BltSlidingPuzzleInfo record (merlin.cpp:1393-1411), type 44, size
0xC. -/
structure BltSlidingPuzzleInfo where
  numPieces1 : Nat
  difficulty1 : Nat
  numPieces2 : Nat
  difficulty2 : Nat
  numPieces3 : Nat
  difficulty3 : Nat
deriving DecidableEq, Repr

def BltSlidingPuzzleInfo.kType : Nat := 44

def BltSlidingPuzzleInfo.kSize : Nat := 0xC

/-- BltSlidingPuzzleInfo::load (merlin.cpp:1396-1403). -/
def BltSlidingPuzzleInfo.load (src : List Nat) : BltSlidingPuzzleInfo :=
  { numPieces1 := readU16BE src 0
    difficulty1 := readU16BE src 2
    numPieces2 := readU16BE src 4
    difficulty2 := readU16BE src 6
    numPieces3 := readU16BE src 8
    difficulty3 := readU16BE src 0xA }

/-- BltPopupCatalog record (merlin.cpp:45-55), size 0x22. -/
structure BltPopupCatalog where
  popupId0 : Nat
  popupId1 : Nat
  popupId2 : Nat
deriving DecidableEq, Repr

def BltPopupCatalog.kSize : Nat := 0x22

/-- BltPopupCatalog::load (merlin.cpp:48-52); bytes 0..0x11 are
skipped. -/
def BltPopupCatalog.load (src : List Nat) : BltPopupCatalog :=
  { popupId0 := readU32BE src 0x12
    popupId1 := readU32BE src 0x18
    popupId2 := readU32BE src 0x1E }

/-- Two byte spans agree on a set of byte offsets. -/
def agreeOn (offs : List Nat) (b b2 : List Nat) : Prop :=
  ∀ o ∈ offs, b.getD o 0 = b2.getD o 0

instance (offs b b2 : List Nat) : Decidable (agreeOn offs b b2) := by
  unfold agreeOn
  infer_instance

lemma readU16BE_congr {b b2 : List Nat} {o : Nat}
    (h1 : b.getD o 0 = b2.getD o 0) (h2 : b.getD (o + 1) 0 = b2.getD (o + 1) 0) :
    readU16BE b o = readU16BE b2 o := by
  unfold readU16BE readU8
  rw [h1, h2]

lemma readU32BE_congr {b b2 : List Nat} {o : Nat}
    (h1 : b.getD o 0 = b2.getD o 0) (h2 : b.getD (o + 1) 0 = b2.getD (o + 1) 0)
    (h3 : b.getD (o + 2) 0 = b2.getD (o + 2) 0)
    (h4 : b.getD (o + 2 + 1) 0 = b2.getD (o + 2 + 1) 0) :
    readU32BE b o = readU32BE b2 o := by
  unfold readU32BE
  rw [readU16BE_congr h1 h2, readU16BE_congr h3 h4]

lemma readS16BE_congr {b b2 : List Nat} {o : Nat}
    (h1 : b.getD o 0 = b2.getD o 0) (h2 : b.getD (o + 1) 0 = b2.getD (o + 1) 0) :
    readS16BE b o = readS16BE b2 o := by
  unfold readS16BE
  rw [readU16BE_congr h1 h2]

/-- The byte offsets the BltScene decoder reads (its documented
fields). -/
def sceneOffsets : List Nat :=
  [0, 1, 2, 3, 4, 5, 6, 7, 8, 10, 11, 12, 13, 22, 23, 24, 25,
    26, 27, 28, 29, 30, 31, 32, 33, 34, 35]

lemma BltScene_load_skips_unknown {b b2 : List Nat}
    (h : agreeOn sceneOffsets b b2) : BltScene.load b = BltScene.load b2 := by
  unfold BltScene.load
  congr 1
  · exact readU32BE_congr (h 0 (by decide)) (h 1 (by decide))
      (h 2 (by decide)) (h 3 (by decide))
  · exact readU32BE_congr (h 4 (by decide)) (h 5 (by decide))
      (h 6 (by decide)) (h 7 (by decide))
  · exact h 8 (by decide)
  · exact readU32BE_congr (h 10 (by decide)) (h 11 (by decide))
      (h 12 (by decide)) (h 13 (by decide))
  · exact readU32BE_congr (h 22 (by decide)) (h 23 (by decide))
      (h 24 (by decide)) (h 25 (by decide))
  · exact readU16BE_congr (h 26 (by decide)) (h 27 (by decide))
  · exact readU32BE_congr (h 28 (by decide)) (h 29 (by decide))
      (h 30 (by decide)) (h 31 (by decide))
  · exact readS16BE_congr (h 32 (by decide)) (h 33 (by decide))
  · exact readS16BE_congr (h 34 (by decide)) (h 35 (by decide))

/-- The byte offsets the BltButtonGraphicElement decoder reads; bytes
2..5 (the unknown image pointer) are absent. -/
def buttonGraphicOffsets : List Nat := [0, 1, 6, 7, 8, 9, 10, 11, 12, 13]

lemma BltButtonGraphicElement_load_skips_unknown {b b2 : List Nat}
    (h : agreeOn buttonGraphicOffsets b b2) :
    BltButtonGraphicElement.load b = BltButtonGraphicElement.load b2 := by
  unfold BltButtonGraphicElement.load
  congr 1
  · exact readU16BE_congr (h 0 (by decide)) (h 1 (by decide))
  · exact readU32BE_congr (h 6 (by decide)) (h 7 (by decide))
      (h 8 (by decide)) (h 9 (by decide))
  · exact readU32BE_congr (h 10 (by decide)) (h 11 (by decide))
      (h 12 (by decide)) (h 13 (by decide))

/-- The byte offsets the BltButtonElement decoder reads; bytes
0xE..0xF (the unknown field) are absent. -/
def buttonElementOffsets : List Nat :=
  [0, 1, 2, 3, 4, 5, 6, 7, 8, 9, 10, 11, 12, 13, 16, 17, 18, 19]

lemma BltButtonElement_load_skips_unknown {b b2 : List Nat}
    (h : agreeOn buttonElementOffsets b b2) :
    BltButtonElement.load b = BltButtonElement.load b2 := by
  unfold BltButtonElement.load loadRect
  congr 1
  · exact readU16BE_congr (h 0 (by decide)) (h 1 (by decide))
  · congr 1
    · exact readS16BE_congr (h 2 (by decide)) (h 3 (by decide))
    · exact readS16BE_congr (h 4 (by decide)) (h 5 (by decide))
    · exact readS16BE_congr (h 6 (by decide)) (h 7 (by decide))
    · exact readS16BE_congr (h 8 (by decide)) (h 9 (by decide))
  · exact readU16BE_congr (h 10 (by decide)) (h 11 (by decide))
  · exact readU16BE_congr (h 12 (by decide)) (h 13 (by decide))
  · exact readU32BE_congr (h 16 (by decide)) (h 17 (by decide))
      (h 18 (by decide)) (h 19 (by decide))

/-- The byte offsets the BltMemoryPuzzleInfo decoder reads; the
unknown timing parameters elsewhere in the 0x10 bytes are absent. -/
def memoryInfoOffsets : List Nat := [2, 3, 8, 9]

lemma BltMemoryPuzzleInfo_load_skips_unknown {b b2 : List Nat}
    (h : agreeOn memoryInfoOffsets b b2) :
    BltMemoryPuzzleInfo.load b = BltMemoryPuzzleInfo.load b2 := by
  unfold BltMemoryPuzzleInfo.load
  congr 1
  · exact readU16BE_congr (h 2 (by decide)) (h 3 (by decide))
  · exact readU16BE_congr (h 8 (by decide)) (h 9 (by decide))

/-- The byte offsets the BltPopupCatalog decoder reads; bytes 0..0x11
and the two-byte gaps between ids are absent. -/
def popupCatalogOffsets : List Nat :=
  [18, 19, 20, 21, 24, 25, 26, 27, 30, 31, 32, 33]

lemma BltPopupCatalog_load_skips_unknown {b b2 : List Nat}
    (h : agreeOn popupCatalogOffsets b b2) :
    BltPopupCatalog.load b = BltPopupCatalog.load b2 := by
  unfold BltPopupCatalog.load
  congr 1
  · exact readU32BE_congr (h 18 (by decide)) (h 19 (by decide))
      (h 20 (by decide)) (h 21 (by decide))
  · exact readU32BE_congr (h 24 (by decide)) (h 25 (by decide))
      (h 26 (by decide)) (h 27 (by decide))
  · exact readU32BE_congr (h 30 (by decide)) (h 31 (by decide))
      (h 32 (by decide)) (h 33 (by decide))

/-- Every decoder declares the documented byte size (and the type tags
recorded in the source comments), extracts every field as a big-endian
integer (or point/rect component) at its fixed byte offset, and
tolerates unknown intervening bytes: decoders are total and depend only
on the documented field offsets. -/
theorem record_decoders_spec :
    (BltScene.kSize = 0x24 ∧ BltPlane.kSize = 0x10 ∧
      BltButtonGraphicElement.kSize = 0xE ∧ BltButtonElement.kSize = 0x14 ∧
      BltMemoryPuzzleInfo.kSize = 0x10 ∧ BltMemoryPuzzleItem.kSize = 0x10 ∧
      BltMemoryPuzzleItemFrame.kSize = 0xA ∧ BltSlidingPuzzleInfo.kSize = 0xC ∧
      BltPopupCatalog.kSize = 0x22 ∧
      BltScene.kType = 32 ∧ BltPlane.kType = 26 ∧
      BltButtonGraphicElement.kType = 30 ∧ BltButtonElement.kType = 31 ∧
      BltSlidingPuzzleInfo.kType = 44) ∧
    (∀ src : List Nat,
      BltScene.load src =
        ⟨readU32BE src 0, readU32BE src 4, readU8 src 0x8, readU32BE src 0xA,
          readU32BE src 0x16, readU16BE src 0x1A, readU32BE src 0x1C,
          readS16BE src 0x20, readS16BE src 0x22⟩ ∧
      BltPlane.load src = ⟨readU32BE src 0, readU32BE src 4, readU32BE src 8⟩ ∧
      BltButtonGraphicElement.load src =
        ⟨readU16BE src 0, readU32BE src 6, readU32BE src 0xA⟩ ∧
      BltButtonElement.load src =
        ⟨readU16BE src 0,
          ⟨readS16BE src 2, readS16BE src 4, readS16BE src 6, readS16BE src 8⟩,
          readU16BE src 0xA, readU16BE src 0xC, readU32BE src 0x10⟩ ∧
      BltMemoryPuzzleInfo.load src = ⟨readU16BE src 2, readU16BE src 8⟩ ∧
      BltMemoryPuzzleItem.load src =
        ⟨readU16BE src 0, readU32BE src 2, readU32BE src 6, readU32BE src 0xA,
          readU16BE src 0xE⟩ ∧
      BltMemoryPuzzleItemFrame.load src =
        ⟨readS16BE src 0, readS16BE src 2, readU32BE src 4, readS16BE src 8⟩ ∧
      BltSlidingPuzzleInfo.load src =
        ⟨readU16BE src 0, readU16BE src 2, readU16BE src 4, readU16BE src 6,
          readU16BE src 8, readU16BE src 0xA⟩ ∧
      BltPopupCatalog.load src =
        ⟨readU32BE src 0x12, readU32BE src 0x18, readU32BE src 0x1E⟩) ∧
    (∀ b b2 : List Nat,
      (agreeOn sceneOffsets b b2 → BltScene.load b = BltScene.load b2) ∧
      (agreeOn buttonGraphicOffsets b b2 →
        BltButtonGraphicElement.load b = BltButtonGraphicElement.load b2) ∧
      (agreeOn buttonElementOffsets b b2 →
        BltButtonElement.load b = BltButtonElement.load b2) ∧
      (agreeOn memoryInfoOffsets b b2 →
        BltMemoryPuzzleInfo.load b = BltMemoryPuzzleInfo.load b2) ∧
      (agreeOn popupCatalogOffsets b b2 →
        BltPopupCatalog.load b = BltPopupCatalog.load b2)) := by
  refine ⟨?_, ?_, ?_⟩
  · exact ⟨rfl, rfl, rfl, rfl, rfl, rfl, rfl, rfl, rfl, rfl, rfl, rfl, rfl, rfl⟩
  · intro src
    exact ⟨rfl, rfl, rfl, rfl, rfl, rfl, rfl, rfl, rfl⟩
  · intro b b2
    exact ⟨BltScene_load_skips_unknown, BltButtonGraphicElement_load_skips_unknown,
      BltButtonElement_load_skips_unknown, BltMemoryPuzzleInfo_load_skips_unknown,
      BltPopupCatalog_load_skips_unknown⟩

/-- Witness for the decoder theorem: two 0x24-byte scene records that
differ only in the unknown region (byte 0x10) decode identically. -/
theorem record_decoders_spec_witness :
    BltScene.load (List.replicate 36 0) =
      BltScene.load ((List.replicate 36 0).set 16 99) :=
  (record_decoders_spec.2.2 (List.replicate 36 0)
    ((List.replicate 36 0).set 16 99)).1 (by decide)

end Funhouse
